import Mathlib

/-!
Verification of the Dojo integration layer of `bevy_dojo_starter`.

The embedding models the three source files:
* `src/constants/dojo.rs` — connection configuration and call selectors;
* `src/demo/dojo/mod.rs` — connection setup and status reporting;
* `src/demo/dojo/intro.rs` — keyboard command dispatch, Torii event
  processing, the entity tracker and the view update system.

Machine integers (`Felt`, `u32`) are modelled as `Nat`; a Rust `panic!` or
`.unwrap()` on `None` is modelled as the `none` outcome of an `Option`
computation.
-/

namespace BevyDojo

/-! ## Basic chain data model -/

/-- A field element of the Starknet field, modelled as a natural number.
`Felt::ZERO` is `0`. -/
abbrev Felt := Nat

/-- A Starknet call, as queued by `dojo.queue_tx`:
`Call { to, selector, calldata }`. -/
structure Call where
  «to» : Felt
  selector : Felt
  calldata : List Felt
deriving DecidableEq, Repr

/-- Modelled from the spec: `selector!("spawn")` from `starknet::macros` is an
external compile-time hash; the core only requires it to be a fixed selector
constant distinct from the move selector. -/
def SPAWN_SELECTOR : Felt := 1

/-- Modelled from the spec: `selector!("move")` from `starknet::macros`,
a fixed selector constant distinct from the spawn selector. -/
def MOVE_SELECTOR : Felt := 2

/-! ## Keyboard input dispatch (`handle_keyboard_input` in `intro.rs`) -/

/-- The key codes distinguished by `handle_keyboard_input`; every other
key code falls into the wildcard arm of the `match` and is modelled by
`other`. -/
inductive KeyCode where
  | space
  | keyS
  | arrowLeft
  | arrowRight
  | arrowUp
  | arrowDown
  | other
deriving DecidableEq, Repr

/-- The `bevy::input::ButtonState` enum. -/
inductive ButtonState where
  | pressed
  | released
deriving DecidableEq, Repr

/-- A `bevy::input::keyboard::KeyboardInput` event, restricted to the two
fields the handler reads. -/
structure KeyboardInput where
  key_code : KeyCode
  state : ButtonState
deriving DecidableEq, Repr

/-- A placeholder for `torii_grpc_client` filter clauses; the code under
verification only ever passes `None` for them. -/
structure Clause where
deriving DecidableEq, Repr

/-- The outbound effects `handle_keyboard_input` can request from the
`DojoResource` collaborator. -/
inductive DojoCommand where
  | queueTx (calls : List Call)
  | subscribeEntities (category : String) (clause : Option Clause)
deriving DecidableEq, Repr

/-- The inner direction-mapping `match` of `handle_keyboard_input`
(`ArrowLeft => 0, ArrowRight => 1, ArrowUp => 2, ArrowDown => 3,
_ => panic!("Invalid key code")`); the panic arm is modelled by `none`. -/
def direction_of_key : KeyCode → Option Nat
  | KeyCode.arrowLeft => some 0
  | KeyCode.arrowRight => some 1
  | KeyCode.arrowUp => some 2
  | KeyCode.arrowDown => some 3
  | _ => none

/-- One iteration of the event loop of `handle_keyboard_input`, given the
configured action contract address. Returns the commands sent to the Dojo
resource; `none` models a `panic!`. The wildcard arm of the source `match`
(`_ => continue`) and a failed `if is_pressed` guard both produce no
commands. -/
def handle_keyboard_input_event (action_address : Felt) (ev : KeyboardInput) :
    Option (List DojoCommand) :=
  match ev.key_code, ev.state with
  | KeyCode.space, ButtonState.pressed =>
      some [DojoCommand.queueTx
        [{ «to» := action_address, selector := SPAWN_SELECTOR, calldata := [] }]]
  | KeyCode.keyS, ButtonState.pressed =>
      some [DojoCommand.subscribeEntities "position" none]
  | KeyCode.arrowLeft, ButtonState.pressed
  | KeyCode.arrowRight, ButtonState.pressed
  | KeyCode.arrowUp, ButtonState.pressed
  | KeyCode.arrowDown, ButtonState.pressed =>
      match direction_of_key ev.key_code with
      | some direction =>
          some [DojoCommand.queueTx
            [{ «to» := action_address, selector := MOVE_SELECTOR,
               calldata := [direction] }]]
      | none => none
  | _, _ => some []

/-- The whole `handle_keyboard_input` system: fold the per-event handler
over the buffered keyboard events in arrival order, concatenating the
requested commands; `none` models a `panic!` in any iteration. -/
def handle_keyboard_input (action_address : Felt) :
    List KeyboardInput → Option (List DojoCommand)
  | [] => some []
  | ev :: rest => do
      let cmds ← handle_keyboard_input_event action_address ev
      let rest_cmds ← handle_keyboard_input action_address rest
      pure (cmds ++ rest_cmds)

/-! ## Dojo model schema (collaborator contract of `dojo_types::schema`)

Modelled from the spec: the `dojo_types` crate is an external collaborator;
a model is a named, schema-less structured record whose field presence and
primitive kind are not statically guaranteed, with accessors that yield a
value only when the kind matches. -/

/-- A primitive schema value; only the kinds the decoder touches are
distinguished, plus extra kinds so that a wrong-kind field is expressible. -/
inductive Primitive where
  | contractAddress (v : Felt)
  | u32 (v : Nat)
  | u8 (v : Nat)
  | felt252 (v : Felt)
deriving DecidableEq, Repr

/-- A schema type: a primitive, or any non-primitive payload (struct, enum,
array, …), collapsed to `composite` since the decoder only ever asks
`as_primitive`. -/
inductive Ty where
  | primitive (p : Primitive)
  | composite
deriving DecidableEq, Repr

/-- A named member of a model struct. -/
structure Member where
  name : String
  ty : Ty
deriving DecidableEq, Repr

/-- A named model struct (`dojo_types::schema::Struct`). -/
structure Struct where
  name : String
  children : List Member
deriving DecidableEq, Repr

/-- The lookup `Struct::get`: look up a child member by name. -/
def Struct.get (s : Struct) (field : String) : Option Ty :=
  (s.children.find? (fun m => m.name == field)).map Member.ty

/-- The accessor `Ty::as_primitive`: yields the primitive only for primitive types. -/
def Ty.as_primitive : Ty → Option Primitive
  | Ty.primitive p => some p
  | Ty.composite => none

/-- The accessor `Primitive::as_contract_address`: yields the value only for the
contract-address kind. -/
def Primitive.as_contract_address : Primitive → Option Felt
  | Primitive.contractAddress v => some v
  | _ => none

/-- The accessor `Primitive::as_u32`: yields the value only for the u32 kind. -/
def Primitive.as_u32 : Primitive → Option Nat
  | Primitive.u32 v => some v
  | _ => none

/-! ## The Position domain event and its decoder (`intro.rs`) -/

/-- The `Position` component: entity identifier plus two u32 coordinates. -/
structure Position where
  player : Felt
  x : Nat
  y : Nat
deriving DecidableEq, Repr

/-- The conversion `impl From<&Struct> for Position`: strict field-by-field extraction of
`player`, `x`, `y`. Each `.unwrap()` of the source is modelled by monadic
failure, so a missing field or a wrong primitive kind makes the whole decode
`none` — never a default value. -/
def position_from_struct (s : Struct) : Option Position := do
  let player ← ((s.get "player").bind Ty.as_primitive).bind
    Primitive.as_contract_address
  let x ← ((s.get "x").bind Ty.as_primitive).bind Primitive.as_u32
  let y ← ((s.get "y").bind Ty.as_primitive).bind Primitive.as_u32
  pure { player := player, x := x, y := y }

/-! ## Torii event processing (`on_dojo_events` in `intro.rs`) -/

/-- A raw update record delivered by the Dojo plugin: entity identifier plus
the list of named models it carries. -/
structure DojoEntityUpdated where
  entity_id : Felt
  models : List Struct
deriving DecidableEq, Repr

/-- The model loop of `on_dojo_events` for one record: dispatch each model by
name in order. `"di-Position"` decodes into a `Position` event (a decode
panic is `none`), `"di-Moves"` is intentionally ignored, and any other name
is reported as unhandled and skipped. Returns the emitted `Position` events
and the unhandled-model reports, in order. -/
def process_models : List Struct → Option (List Position × List String)
  | [] => some ([], [])
  | m :: rest =>
    if m.name == "di-Position" then do
      let p ← position_from_struct m
      let (evs, reports) ← process_models rest
      pure (p :: evs, reports)
    else if m.name == "di-Moves" then
      process_models rest
    else do
      let (evs, reports) ← process_models rest
      pure (evs, m.name :: reports)

/-- One iteration of the record loop of `on_dojo_events`: a record whose
`entity_id` is `Felt::ZERO` is discarded before the model loop runs
(`continue`); otherwise its models are processed. -/
def on_entity_update (r : DojoEntityUpdated) : Option (List Position × List String) :=
  if r.entity_id = 0 then some ([], [])
  else process_models r.models

/-- The whole record loop of `on_dojo_events` over the buffered records in
arrival order, concatenating emitted events and reports. -/
def on_entity_updates : List DojoEntityUpdated → Option (List Position × List String)
  | [] => some ([], [])
  | r :: rest => do
    let (evs, reports) ← on_entity_update r
    let (evs2, reports2) ← on_entity_updates rest
    pure (evs ++ evs2, reports ++ reports2)

/-! ## The initial bulk query (`on_dojo_events` initialized loop) -/

/-- The `torii_grpc_client::types::PaginationDirection` enum. -/
inductive PaginationDirection where
  | forward
  | backward
deriving DecidableEq, Repr

/-- A placeholder for `torii_grpc_client` order-by entries; the code under
verification only ever passes an empty list of them. -/
structure OrderBy where
deriving DecidableEq, Repr

/-- The `torii_grpc_client::types::Pagination` record. -/
structure Pagination where
  limit : Nat
  cursor : Option String
  direction : PaginationDirection
  order_by : List OrderBy
deriving DecidableEq, Repr

/-- The `torii_grpc_client::types::Query` record. -/
structure ToriiQuery where
  clause : Option Clause
  pagination : Pagination
  no_hashed_keys : Bool
  models : List String
  historical : Bool
deriving DecidableEq, Repr

/-- The bulk query issued by `on_dojo_events` upon the initialized signal. -/
def initial_entities_query : ToriiQuery :=
  { clause := none,
    pagination :=
      { limit := 100,
        cursor := none,
        direction := PaginationDirection.forward,
        order_by := [] },
    no_hashed_keys := false,
    models := [],
    historical := false }

/-- The initialized loop of `on_dojo_events`: one `queue_retrieve_entities`
call per buffered initialized signal. -/
def on_dojo_events_initialized (signals : List Unit) : List ToriiQuery :=
  signals.map (fun _ => initial_entities_query)

/-! ## Entity tracker and view updates (`update_player_position`) -/

/-- The `EntityTracker` resource: the set of entity identifiers already
seen, modelled as a list used only through membership and insertion. -/
structure EntityTracker where
  existing_entities : List Felt
deriving DecidableEq, Repr

/-- A visual entity of the view collaborator: a spawned `Player { id }`
with its `Transform` position (the two coordinates the system writes). -/
structure VisualEntity where
  id : Felt
  x : Nat
  y : Nat
deriving DecidableEq, Repr

/-- The state touched by `update_player_position`: the tracker resource and
the ECS query over `(&mut Transform, &Player)`. -/
structure ViewState where
  tracker : EntityTracker
  entities : List VisualEntity
deriving DecidableEq, Repr

/-- The instructions `update_player_position` issues to the view
collaborator: spawn a new visual entity, or move an existing one. -/
inductive ViewInstr where
  | spawn (id : Felt) (x y : Nat)
  | move (id : Felt) (x y : Nat)
deriving DecidableEq, Repr

/-- One iteration of the event loop of `update_player_position`: if the
event's identifier was not yet seen, spawn a cube at the event's coordinates
and mark the identifier seen; otherwise write the event's coordinates into
the transform of every visual entity whose `Player.id` matches (one move
instruction per matching entity, so none at all if no entity matches). -/
def update_player_position_event (s : ViewState) (ev : Position) :
    ViewState × List ViewInstr :=
  if !(s.tracker.existing_entities.contains ev.player) then
    ({ tracker := { existing_entities := ev.player :: s.tracker.existing_entities },
       entities := s.entities ++ [{ id := ev.player, x := ev.x, y := ev.y }] },
     [ViewInstr.spawn ev.player ev.x ev.y])
  else
    ({ s with
        entities := s.entities.map (fun e =>
          if e.id == ev.player then { e with x := ev.x, y := ev.y } else e) },
     (s.entities.filter (fun e => e.id == ev.player)).map
       (fun _ => ViewInstr.move ev.player ev.x ev.y))

/-- The whole `update_player_position` system: fold the per-event step over
the buffered `PositionUpdatedEvent`s in arrival order. -/
def update_player_position (s : ViewState) :
    List Position → ViewState × List ViewInstr
  | [] => (s, [])
  | ev :: rest =>
    let (s1, out1) := update_player_position_event s ev
    let (s2, out2) := update_player_position s1 rest
    (s2, out1 ++ out2)

/-! ## Connection configuration (`constants/dojo.rs`) -/

/-- The Starknet field prime; a hex string parses to a `Felt` only below it. -/
def FELT_PRIME : Nat := 2 ^ 251 + 17 * 2 ^ 192 + 1

/-- Hexadecimal digit test. -/
def is_hex_digit (c : Char) : Bool :=
  c.isDigit || (97 ≤ c.toNat && c.toNat ≤ 102) || (65 ≤ c.toNat && c.toNat ≤ 70)

/-- Numeric value of a hexadecimal digit. -/
def hex_val (c : Char) : Nat :=
  if c.isDigit then c.toNat - 48
  else if 97 ≤ c.toNat then c.toNat - 87
  else c.toNat - 55

/-- Modelled from the spec: `Felt::from_hex` of the `starknet` crate is an
external parser of hex contract identifiers; it accepts an optionally
`0x`-prefixed non-empty string of hex digits denoting a value below the
field prime, and fails on anything else. -/
def Felt.from_hex (s : String) : Option Felt :=
  let chars := s.toList
  let body := if chars.take 2 = ['0', 'x'] then chars.drop 2 else chars
  if !body.isEmpty && body.all is_hex_digit then
    let v := body.foldl (fun acc c => 16 * acc + hex_val c) 0
    if v < FELT_PRIME then some v else none
  else none

/-- Modelled from the spec: Rust `str::parse::<u32>` is an external integer
parser; it accepts an optionally `+`-prefixed non-empty string of decimal
digits whose value fits in 32 bits, and fails on anything else. -/
def parse_u32 (s : String) : Option Nat :=
  let chars := s.toList
  let body := if chars.take 1 = ['+'] then chars.drop 1 else chars
  if !body.isEmpty && body.all Char.isDigit then
    let v := body.foldl (fun acc c => 10 * acc + (c.toNat - 48)) 0
    if v < 2 ^ 32 then some v else none
  else none

/-- The deployed world address fallback from `manifest_dev.json`. -/
def WORLD_ADDRESS_DEFAULT : Felt :=
  0x0393f8a2d0d47e384c3c61eedc08d2873f5d608f8da7ffb013e5d5aa327ac8f2

/-- The deployed action address fallback from `manifest_dev.json`. -/
def ACTION_ADDRESS_DEFAULT : Felt :=
  0x0173922b4b70c89732bcb6f3cf6598afb2020001e469b86fc76a4f2a60a139df

/-- The environment, as the partial map read by `std::env::var`. -/
abbrev Env := String → Option String

/-- The `DojoConfig` record from `constants/dojo.rs`. -/
structure DojoConfig where
  torii_url : String
  katana_url : String
  world_address : Felt
  action_address : Felt
  use_dev_account : Bool
  dev_account_index : Nat
deriving DecidableEq, Repr

/-- The constructor `impl Default for DojoConfig`, as a function of the environment: every
field falls back to its hardcoded default when its variable is unset, and
the parsed fields (`world_address`, `action_address`, `dev_account_index`)
also fall back when the value does not parse. Total: no error is ever
surfaced. -/
def DojoConfig.default (env : Env) : DojoConfig :=
  { torii_url := (env "TORII_URL").getD "http://localhost:8080",
    katana_url := (env "KATANA_URL").getD "http://0.0.0.0:5050",
    world_address :=
      ((env "WORLD_ADDRESS").bind Felt.from_hex).getD WORLD_ADDRESS_DEFAULT,
    action_address :=
      ((env "ACTION_ADDRESS").bind Felt.from_hex).getD ACTION_ADDRESS_DEFAULT,
    use_dev_account := ((env "USE_DEV_ACCOUNT").getD "true") == "true",
    dev_account_index := (parse_u32 ((env "DEV_ACCOUNT_INDEX").getD "0")).getD 0 }

/-! ## Connection setup (`handle_dojo_setup` in `mod.rs`) -/

/-- The `DojoSystemState` resource. -/
structure DojoSystemState where
  torii_connected : Bool
  account_connected : Bool
  last_error : Option String
  config : DojoConfig
deriving DecidableEq, Repr

/-- The connection calls `handle_dojo_setup` can issue to the
`DojoResource` collaborator. -/
inductive SetupCall where
  | connectTorii (url : String) (world : Felt)
  | connectPredeployedAccount (url : String) (index : Nat)
deriving DecidableEq, Repr

/-- The per-tick pipeline for one raw record: the `Position` events emitted
by `on_dojo_events` are consumed by `update_player_position` on the same
frame (the view system runs `.after(on_dojo_events)`); a decode panic
(`none`) yields no view instructions at all. -/
def record_view_instructions (s : ViewState) (r : DojoEntityUpdated) :
    Option (ViewState × List ViewInstr × List String) :=
  (on_entity_update r).map (fun er =>
    let (s1, out) := update_player_position s er.1
    (s1, out, er.2))

/-- The system `handle_dojo_setup`: always initiate the Torii connection and set
`torii_connected`; initiate the predeployed-account connection and set
`account_connected` only when the configuration requests a development
account. Returns the updated state and the issued calls in order. -/
def handle_dojo_setup (s : DojoSystemState) : DojoSystemState × List SetupCall :=
  let config := s.config
  let s1 : DojoSystemState := { s with torii_connected := true }
  if config.use_dev_account then
    ({ s1 with account_connected := true },
     [SetupCall.connectTorii config.torii_url config.world_address,
      SetupCall.connectPredeployedAccount config.katana_url
        config.dev_account_index])
  else
    (s1, [SetupCall.connectTorii config.torii_url config.world_address])

end BevyDojo

namespace BevyDojo

/-! ## Theorems about keyboard dispatch -/

/-- Helper: the per-event handler never produces the panic outcome. -/
theorem handle_keyboard_input_event_isSome (action_address : Felt)
    (ev : KeyboardInput) :
    (handle_keyboard_input_event action_address ev).isSome = true := by
  cases hk : ev.key_code <;> cases hs : ev.state <;>
    simp [handle_keyboard_input_event, direction_of_key, hk, hs]

/-- C5: a spawn input action (Space pressed) produces exactly one command,
carrying exactly one call, whose target is the configured action contract
address, whose selector is the fixed spawn selector, and whose calldata is
empty — for every action address, hence regardless of any prior state. -/
theorem spawn_action_single_call (action_address : Felt) :
    handle_keyboard_input_event action_address
        { key_code := KeyCode.space, state := ButtonState.pressed }
      = some [DojoCommand.queueTx
          [{ «to» := action_address, selector := SPAWN_SELECTOR,
             calldata := [] }]] := rfl

/-- C6: each directional input action produces exactly one command carrying
exactly one call to the action contract with the fixed move selector, whose
calldata is the single entry given by the mapping
left → 0, right → 1, up → 2, down → 3. -/
theorem move_action_direction_encoding (action_address : Felt) :
    (handle_keyboard_input_event action_address
        { key_code := KeyCode.arrowLeft, state := ButtonState.pressed }
      = some [DojoCommand.queueTx
          [{ «to» := action_address, selector := MOVE_SELECTOR,
             calldata := [0] }]])
    ∧ (handle_keyboard_input_event action_address
        { key_code := KeyCode.arrowRight, state := ButtonState.pressed }
      = some [DojoCommand.queueTx
          [{ «to» := action_address, selector := MOVE_SELECTOR,
             calldata := [1] }]])
    ∧ (handle_keyboard_input_event action_address
        { key_code := KeyCode.arrowUp, state := ButtonState.pressed }
      = some [DojoCommand.queueTx
          [{ «to» := action_address, selector := MOVE_SELECTOR,
             calldata := [2] }]])
    ∧ (handle_keyboard_input_event action_address
        { key_code := KeyCode.arrowDown, state := ButtonState.pressed }
      = some [DojoCommand.queueTx
          [{ «to» := action_address, selector := MOVE_SELECTOR,
             calldata := [3] }]]) :=
  ⟨rfl, rfl, rfl, rfl⟩

/-- C10: the keyboard-input handler never panics: for every list of
keyboard input events the handler returns a command list, because the inner
direction-mapping match is only reached for the four arrow keys, on which
its catch-all panic arm is unreachable. -/
theorem handle_keyboard_input_never_panics (action_address : Felt)
    (evs : List KeyboardInput) :
    (handle_keyboard_input action_address evs).isSome = true := by
  induction evs with
  | nil => rfl
  | cons ev rest ih =>
      have h := handle_keyboard_input_event_isSome action_address ev
      simp only [handle_keyboard_input, Option.bind_eq_bind]
      rcases Option.isSome_iff_exists.mp h with ⟨cmds, hc⟩
      rcases Option.isSome_iff_exists.mp ih with ⟨rest_cmds, hr⟩
      simp [hc, hr]

end BevyDojo

namespace BevyDojo

/-! ## Theorems about Torii event processing -/

/-- C2: a record whose entity identifier is the sentinel `Felt::ZERO` is
discarded whole: no `Position` event is emitted, no model is dispatched (no
unhandled-model report, no decode of any model), and the view pipeline
issues zero instructions and leaves the view state unchanged. -/
theorem sentinel_record_discarded (r : DojoEntityUpdated) (s : ViewState)
    (h : r.entity_id = 0) :
    on_entity_update r = some ([], [])
    ∧ record_view_instructions s r = some (s, [], []) := by
  constructor
  · simp [on_entity_update, h]
  · simp [record_view_instructions, on_entity_update, h, update_player_position]

/-- Witness for C2: the sentinel record carrying a `di-Position` model whose
decode would panic still produces zero instructions, unchanged state and no
report. -/
theorem sentinel_record_discarded_witness :
    on_entity_update
        { entity_id := 0, models := [{ name := "di-Position", children := [] }] }
      = some ([], [])
    ∧ record_view_instructions
        { tracker := { existing_entities := [] }, entities := [] }
        { entity_id := 0, models := [{ name := "di-Position", children := [] }] }
      = some ({ tracker := { existing_entities := [] }, entities := [] }, [], []) :=
  sentinel_record_discarded _ _ rfl

end BevyDojo

namespace BevyDojo

/-- C3: a non-sentinel record carrying one decodable `di-Position` model and
one model with an unrecognized name yields exactly one `Position` event and
exactly one unhandled-model report, in either sibling order, and processing
does not abort: a subsequent record is still processed. -/
theorem unknown_model_nonfatal (id : Felt) (m1 m2 : Struct) (p : Position)
    (r2 : DojoEntityUpdated) (evs2 : List Position) (reports2 : List String)
    (hid : id ≠ 0)
    (h1 : m1.name = "di-Position")
    (hp : position_from_struct m1 = some p)
    (h2a : m2.name ≠ "di-Position")
    (h2b : m2.name ≠ "di-Moves")
    (hr2 : on_entity_update r2 = some (evs2, reports2)) :
    on_entity_update { entity_id := id, models := [m1, m2] }
      = some ([p], [m2.name])
    ∧ on_entity_update { entity_id := id, models := [m2, m1] }
      = some ([p], [m2.name])
    ∧ on_entity_updates [{ entity_id := id, models := [m1, m2] }, r2]
      = some (p :: evs2, m2.name :: reports2) := by
  have hm : on_entity_update { entity_id := id, models := [m1, m2] }
      = some ([p], [m2.name]) := by
    simp [on_entity_update, hid, process_models, h1, h2a, h2b, hp]
  refine ⟨hm, ?_, ?_⟩
  · simp [on_entity_update, hid, process_models, h1, h2a, h2b, hp]
  · simp [on_entity_updates, hm, hr2]

/-- Witness for C3: record with id 5 carrying a well-formed `di-Position`
model and a `di-Foo` model, followed by a sentinel record. -/
theorem unknown_model_nonfatal_witness :
    on_entity_update
        { entity_id := 5,
          models :=
            [{ name := "di-Position",
               children :=
                 [{ name := "player", ty := Ty.primitive (Primitive.contractAddress 7) },
                  { name := "x", ty := Ty.primitive (Primitive.u32 3) },
                  { name := "y", ty := Ty.primitive (Primitive.u32 4) }] },
             { name := "di-Foo", children := [] }] }
      = some ([{ player := 7, x := 3, y := 4 }], ["di-Foo"])
    ∧ on_entity_update
        { entity_id := 5,
          models :=
            [{ name := "di-Foo", children := [] },
             { name := "di-Position",
               children :=
                 [{ name := "player", ty := Ty.primitive (Primitive.contractAddress 7) },
                  { name := "x", ty := Ty.primitive (Primitive.u32 3) },
                  { name := "y", ty := Ty.primitive (Primitive.u32 4) }] }] }
      = some ([{ player := 7, x := 3, y := 4 }], ["di-Foo"])
    ∧ on_entity_updates
        [{ entity_id := 5,
           models :=
             [{ name := "di-Position",
                children :=
                  [{ name := "player", ty := Ty.primitive (Primitive.contractAddress 7) },
                   { name := "x", ty := Ty.primitive (Primitive.u32 3) },
                   { name := "y", ty := Ty.primitive (Primitive.u32 4) }] },
              { name := "di-Foo", children := [] }] },
         { entity_id := 0, models := [] }]
      = some ([{ player := 7, x := 3, y := 4 }], ["di-Foo"]) :=
  unknown_model_nonfatal 5 _ _ _ { entity_id := 0, models := [] } [] []
    (by decide) rfl rfl (by decide) (by decide) rfl

end BevyDojo

namespace BevyDojo

/-- C4: if the `y` extraction of a `di-Position` model fails — the field is
missing, or not a primitive, or of the wrong primitive kind — the decode is
a hard failure (`none`, never a defaulted `Position`), that record's
processing fails, and the view pipeline produces no instruction at all for
it (in particular none with a fabricated or default `y`). -/
theorem position_decode_missing_y (m : Struct) (id : Felt) (s : ViewState)
    (hname : m.name = "di-Position")
    (hy : ((m.get "y").bind Ty.as_primitive).bind Primitive.as_u32 = none)
    (hid : id ≠ 0) :
    position_from_struct m = none
    ∧ on_entity_update { entity_id := id, models := [m] } = none
    ∧ record_view_instructions s { entity_id := id, models := [m] } = none := by
  have hdec : position_from_struct m = none := by
    unfold position_from_struct
    cases hpl : ((m.get "player").bind Ty.as_primitive).bind
        Primitive.as_contract_address with
    | none => rfl
    | some player =>
        cases hx : ((m.get "x").bind Ty.as_primitive).bind Primitive.as_u32 with
        | none => rfl
        | some x => simp [hy]
  refine ⟨hdec, ?_, ?_⟩
  · simp [on_entity_update, hid, process_models, hname, hdec]
  · simp [record_view_instructions, on_entity_update, hid, process_models,
      hname, hdec]

/-- Witness for C4: a `di-Position` model with valid `player` and `x` but no
`y` member at all decodes to a hard failure and yields no view instruction. -/
theorem position_decode_missing_y_witness :
    position_from_struct
        { name := "di-Position",
          children :=
            [{ name := "player", ty := Ty.primitive (Primitive.contractAddress 7) },
             { name := "x", ty := Ty.primitive (Primitive.u32 3) }] }
      = none
    ∧ on_entity_update
        { entity_id := 5,
          models :=
            [{ name := "di-Position",
               children :=
                 [{ name := "player", ty := Ty.primitive (Primitive.contractAddress 7) },
                  { name := "x", ty := Ty.primitive (Primitive.u32 3) }] }] }
      = none
    ∧ record_view_instructions
        { tracker := { existing_entities := [] }, entities := [] }
        { entity_id := 5,
          models :=
            [{ name := "di-Position",
               children :=
                 [{ name := "player", ty := Ty.primitive (Primitive.contractAddress 7) },
                  { name := "x", ty := Ty.primitive (Primitive.u32 3) }] }] }
      = none :=
  position_decode_missing_y _ 5 _ rfl rfl (by decide)

end BevyDojo

namespace BevyDojo

/-- C7: one initialized signal makes `on_dojo_events` issue exactly one bulk
entity query, and that query has page-size limit 100, no starting cursor,
forward pagination, empty order-by, no model filter, no filter clause and no
historical data; in general exactly one query is issued per signal, so the
once-emitted signal yields at most one initial full sync per connection
lifetime. -/
theorem initialized_single_bulk_query :
    on_dojo_events_initialized [()] = [initial_entities_query]
    ∧ (∀ signals : List Unit,
        (on_dojo_events_initialized signals).length = signals.length)
    ∧ initial_entities_query.pagination.limit = 100
    ∧ initial_entities_query.pagination.cursor = none
    ∧ initial_entities_query.pagination.direction = PaginationDirection.forward
    ∧ initial_entities_query.pagination.order_by = []
    ∧ initial_entities_query.models = []
    ∧ initial_entities_query.clause = none
    ∧ initial_entities_query.historical = false := by
  refine ⟨rfl, ?_, rfl, rfl, rfl, rfl, rfl, rfl, rfl⟩
  intro signals
  simp [on_dojo_events_initialized]

end BevyDojo

namespace BevyDojo

/-! ## Theorems about the entity tracker and view updates -/

/-- C1: for an identifier not yet marked seen (and, consistently, with no
matching visual entity), the first `Position` event issues exactly one
spawn instruction at the event's coordinates and marks the identifier seen;
a second event for the same identifier issues exactly one move instruction
for the matching visual entity and no second spawn; and in general, for an
identifier marked seen with no matching visual entity, no instruction is
issued at all — no duplicate entity is fabricated. -/
theorem position_update_create_once_then_move (s : ViewState) (p q : Position)
    (hq : q.player = p.player)
    (hnew : p.player ∉ s.tracker.existing_entities)
    (hcons : ∀ e ∈ s.entities, e.id ≠ p.player) :
    (update_player_position_event s p).2 = [ViewInstr.spawn p.player p.x p.y]
    ∧ p.player ∈ (update_player_position_event s p).1.tracker.existing_entities
    ∧ (update_player_position_event (update_player_position_event s p).1 q).2
      = [ViewInstr.move q.player q.x q.y]
    ∧ (∀ (s1 : ViewState) (r : Position),
        r.player ∈ s1.tracker.existing_entities →
        (∀ e ∈ s1.entities, e.id ≠ r.player) →
        (update_player_position_event s1 r).2 = []) := by
  have habsent : ∀ (s1 : ViewState) (r : Position),
      r.player ∈ s1.tracker.existing_entities →
      (∀ e ∈ s1.entities, e.id ≠ r.player) →
      (update_player_position_event s1 r).2 = [] := by
    intro s1 r hmem hmiss
    have hfilter : s1.entities.filter (fun e => e.id == r.player) = [] := by
      refine List.filter_eq_nil_iff.mpr ?_
      intro e he
      simpa using hmiss e he
    simp [update_player_position_event, hmem, hfilter]
  refine ⟨?_, ?_, ?_, habsent⟩
  · simp [update_player_position_event, hnew]
  · simp [update_player_position_event, hnew]
  · have hfilter : s.entities.filter (fun e => e.id == q.player) = [] := by
      refine List.filter_eq_nil_iff.mpr ?_
      intro e he
      simpa [hq] using hcons e he
    simp [update_player_position_event, hnew, hq, hfilter,
      List.filter_append]
    exact fun a ha => hcons a ha

end BevyDojo

namespace BevyDojo

/-- Witness for C1: from an empty view state, a first event for id 7 at
(3, 4) spawns once and marks 7 seen, and a second event for id 7 at (5, 4)
moves the spawned entity. -/
theorem position_update_create_once_then_move_witness :
    (update_player_position_event
        { tracker := { existing_entities := [] }, entities := [] }
        { player := 7, x := 3, y := 4 }).2
      = [ViewInstr.spawn 7 3 4]
    ∧ 7 ∈ (update_player_position_event
        { tracker := { existing_entities := [] }, entities := [] }
        { player := 7, x := 3, y := 4 }).1.tracker.existing_entities
    ∧ (update_player_position_event
        (update_player_position_event
          { tracker := { existing_entities := [] }, entities := [] }
          { player := 7, x := 3, y := 4 }).1
        { player := 7, x := 5, y := 4 }).2
      = [ViewInstr.move 7 5 4] :=
  have h := position_update_create_once_then_move
    { tracker := { existing_entities := [] }, entities := [] }
    { player := 7, x := 3, y := 4 } { player := 7, x := 5, y := 4 }
    rfl (by decide) (by decide)
  ⟨h.1, h.2.1, h.2.2.1⟩

end BevyDojo

namespace BevyDojo

/-! ## Theorems about configuration and connection setup -/

/-- C8: constructing the configuration is total (never fails, never
surfaces an error), and every field falls back to its hardcoded default
when its environment variable is unset; the hex-address fields and the
integer index also fall back when the value is set but unparsable. -/
theorem dojo_config_fallback_defaults (env : Env) :
    (env "TORII_URL" = none →
      (DojoConfig.default env).torii_url = "http://localhost:8080")
    ∧ (env "KATANA_URL" = none →
      (DojoConfig.default env).katana_url = "http://0.0.0.0:5050")
    ∧ (env "WORLD_ADDRESS" = none →
      (DojoConfig.default env).world_address = WORLD_ADDRESS_DEFAULT)
    ∧ (∀ a, env "WORLD_ADDRESS" = some a → Felt.from_hex a = none →
      (DojoConfig.default env).world_address = WORLD_ADDRESS_DEFAULT)
    ∧ (env "ACTION_ADDRESS" = none →
      (DojoConfig.default env).action_address = ACTION_ADDRESS_DEFAULT)
    ∧ (∀ a, env "ACTION_ADDRESS" = some a → Felt.from_hex a = none →
      (DojoConfig.default env).action_address = ACTION_ADDRESS_DEFAULT)
    ∧ (env "USE_DEV_ACCOUNT" = none →
      (DojoConfig.default env).use_dev_account = true)
    ∧ (env "DEV_ACCOUNT_INDEX" = none →
      (DojoConfig.default env).dev_account_index = 0)
    ∧ (∀ a, env "DEV_ACCOUNT_INDEX" = some a → parse_u32 a = none →
      (DojoConfig.default env).dev_account_index = 0) := by
  refine ⟨?_, ?_, ?_, ?_, ?_, ?_, ?_, ?_, ?_⟩
  · intro h; simp [DojoConfig.default, h]
  · intro h; simp [DojoConfig.default, h]
  · intro h; simp [DojoConfig.default, h]
  · intro a h hparse; simp [DojoConfig.default, h, hparse]
  · intro h; simp [DojoConfig.default, h]
  · intro a h hparse; simp [DojoConfig.default, h, hparse]
  · intro h; simp [DojoConfig.default, h]
  · intro h
    have h0 : parse_u32 "0" = some 0 := by decide
    simp [DojoConfig.default, h, h0]
  · intro a h hparse; simp [DojoConfig.default, h, hparse]

/-- Witness for C8: with an environment leaving the URLs and flag unset,
an unparsable world address, an unparsable action address and an unparsable
index, every field takes its hardcoded default. -/
theorem dojo_config_fallback_defaults_witness :
    (DojoConfig.default (fun _ => none)).torii_url = "http://localhost:8080"
    ∧ (DojoConfig.default (fun _ => none)).katana_url = "http://0.0.0.0:5050"
    ∧ (DojoConfig.default (fun _ => none)).use_dev_account = true
    ∧ (DojoConfig.default (fun _ => none)).dev_account_index = 0
    ∧ (DojoConfig.default
        (fun v => if v = "WORLD_ADDRESS" then some "zz" else none)).world_address
      = WORLD_ADDRESS_DEFAULT
    ∧ (DojoConfig.default
        (fun v => if v = "ACTION_ADDRESS" then some "zz" else none)).action_address
      = ACTION_ADDRESS_DEFAULT
    ∧ (DojoConfig.default
        (fun v => if v = "DEV_ACCOUNT_INDEX" then some "abc" else none)).dev_account_index
      = 0 :=
  have h0 := dojo_config_fallback_defaults (fun _ => none)
  have hw := dojo_config_fallback_defaults
    (fun v => if v = "WORLD_ADDRESS" then some "zz" else none)
  have ha := dojo_config_fallback_defaults
    (fun v => if v = "ACTION_ADDRESS" then some "zz" else none)
  have hd := dojo_config_fallback_defaults
    (fun v => if v = "DEV_ACCOUNT_INDEX" then some "abc" else none)
  ⟨h0.1 rfl, h0.2.1 rfl, h0.2.2.2.2.2.2.1 rfl, h0.2.2.2.2.2.2.2.1 rfl,
   hw.2.2.2.1 "zz" rfl (by decide),
   ha.2.2.2.2.2.1 "zz" rfl (by decide),
   hd.2.2.2.2.2.2.2.2 "abc" rfl (by decide)⟩

end BevyDojo

namespace BevyDojo

/-- C9: starting with the account not connected, `handle_dojo_setup` leaves
the account-connected flag false and issues no predeployed-account
connection call when the configuration's dev-account flag is false; the
account connection is initiated, and the flag set to true, exactly when the
configuration requests a development account. -/
theorem dev_account_flag_gates_account_connection (s : DojoSystemState)
    (hconn : s.account_connected = false) :
    (s.config.use_dev_account = false →
      (handle_dojo_setup s).1.account_connected = false
      ∧ ∀ url idx,
          SetupCall.connectPredeployedAccount url idx ∉ (handle_dojo_setup s).2)
    ∧ (s.config.use_dev_account = true →
      (handle_dojo_setup s).1.account_connected = true
      ∧ SetupCall.connectPredeployedAccount s.config.katana_url
          s.config.dev_account_index ∈ (handle_dojo_setup s).2) := by
  constructor
  · intro hflag
    constructor
    · simp [handle_dojo_setup, hflag, hconn]
    · intro url idx
      simp [handle_dojo_setup, hflag]
  · intro hflag
    constructor
    · simp [handle_dojo_setup, hflag]
    · simp [handle_dojo_setup, hflag]

/-- Witness for C9: with the dev-account flag off the account stays
disconnected and no account call is issued; with it on the account call is
issued and the flag is set. -/
theorem dev_account_flag_gates_account_connection_witness :
    ((handle_dojo_setup
        { torii_connected := false, account_connected := false,
          last_error := none,
          config :=
            { torii_url := "t", katana_url := "k", world_address := 1,
              action_address := 2, use_dev_account := false,
              dev_account_index := 0 } }).1.account_connected = false
      ∧ ∀ url idx,
          SetupCall.connectPredeployedAccount url idx ∉
            (handle_dojo_setup
              { torii_connected := false, account_connected := false,
                last_error := none,
                config :=
                  { torii_url := "t", katana_url := "k", world_address := 1,
                    action_address := 2, use_dev_account := false,
                    dev_account_index := 0 } }).2)
    ∧ ((handle_dojo_setup
        { torii_connected := false, account_connected := false,
          last_error := none,
          config :=
            { torii_url := "t", katana_url := "k", world_address := 1,
              action_address := 2, use_dev_account := true,
              dev_account_index := 0 } }).1.account_connected = true
      ∧ SetupCall.connectPredeployedAccount "k" 0 ∈
          (handle_dojo_setup
            { torii_connected := false, account_connected := false,
              last_error := none,
              config :=
                { torii_url := "t", katana_url := "k", world_address := 1,
                  action_address := 2, use_dev_account := true,
                  dev_account_index := 0 } }).2) :=
  ⟨(dev_account_flag_gates_account_connection _ rfl).1 rfl,
   (dev_account_flag_gates_account_connection _ rfl).2 rfl⟩

end BevyDojo
